import Mathlib

/-!
# Shallow embedding of the Projections validation framework

This file embeds the two Python pipelines of the repository,
`ProjectionValidator` (src/validation_framework.py) and
`ProjectionValidatorCorrected` (src/validation_framework_corrected.py),
and settles the frozen claims about them.

Embedding conventions:

* Python floats are idealised as exact rationals, except that the IEEE
  `NaN` value is modelled explicitly (constructor `PVal.nan`), because the
  pandas pivot table produces `NaN` cells for missing values, and `NaN`
  propagation is load-bearing for several claims.  Rounding, overflow and
  signed zeros are idealised away.
* A Python exception (`KeyError` from `DataFrame.loc`, `ZeroDivisionError`
  from an unguarded float division) is modelled as `Option.none`.
* `self.parameters` is the pivot of the `MonthlyInputs` rows
  (`index='InputType'`, `columns='Month'`, `values='Value'`,
  `aggfunc='first'`).  We keep the raw row list as the state and model the
  pivot's lookup semantics on top of it:
  - `input_type in parameters.index` iff some row carries that input type;
  - the pivot has a column for month `m` iff some row carries month `m`;
  - `row.get(m, 0)` returns the default `0` only when no column `m`
    exists at all; when the column exists but this input type has no value
    there, the cell reads as `NaN`;
  - `parameters.loc[t, 37]` raises `KeyError` when no column `37` exists.
* pandas element-wise division (used for the variance columns) yields
  `NaN` or a signed infinity instead of raising; its result type is `EVal`.
-/

/-- A Python float value, idealised: either an exact rational or `NaN`. -/
inductive PVal where
  | num : ℚ → PVal
  | nan : PVal
deriving DecidableEq, Repr

namespace PVal

/-- Float addition: `NaN` propagates. -/
def add : PVal → PVal → PVal
  | num a, num b => num (a + b)
  | _, _ => nan

/-- Float multiplication: `NaN` propagates. -/
def mul : PVal → PVal → PVal
  | num a, num b => num (a * b)
  | _, _ => nan

/-- Float subtraction: `NaN` propagates. -/
def sub : PVal → PVal → PVal
  | num a, num b => num (a - b)
  | _, _ => nan

/-- Float division at call sites whose divisor is a nonzero constant
(the interpolation bands divide by `5`, `6` and `12` only); `NaN`
propagates.  Division that can raise is modelled separately by `pyDiv`. -/
def div : PVal → PVal → PVal
  | num a, num b => num (a / b)
  | _, _ => nan

/-- Python `v > q` comparison against a rational: `NaN > q` is `False`. -/
def gt (v : PVal) (q : ℚ) : Bool :=
  match v with
  | num a => decide (q < a)
  | nan => false

end PVal

instance : Add PVal := ⟨PVal.add⟩
instance : Mul PVal := ⟨PVal.mul⟩
instance : Sub PVal := ⟨PVal.sub⟩
instance : Div PVal := ⟨PVal.div⟩
instance : One PVal := ⟨PVal.num 1⟩
instance : Zero PVal := ⟨PVal.num 0⟩

/-- The type `PVal` under float multiplication is a commutative monoid (in the
idealised semantics `NaN` is absorbing, so the laws are unconditional);
the derived `Monoid.npow` agrees with Python `**` on natural exponents,
including `nan ** 0 == 1.0`. -/
instance : CommMonoid PVal where
  mul := (· * ·)
  one := 1
  mul_assoc := by
    intro a b c
    cases a <;> cases b <;> cases c <;>
      first
      | rfl
      | exact congrArg PVal.num (mul_assoc _ _ _)
  one_mul := by
    intro a
    cases a <;>
      first
      | rfl
      | exact congrArg PVal.num (one_mul _)
  mul_one := by
    intro a
    cases a <;>
      first
      | rfl
      | exact congrArg PVal.num (mul_one _)
  mul_comm := by
    intro a b
    cases a <;> cases b <;>
      first
      | rfl
      | exact congrArg PVal.num (mul_comm _ _)

/-- The type `PVal` under float addition is a commutative monoid. -/
instance : AddCommMonoid PVal where
  add := (· + ·)
  zero := 0
  add_assoc := by
    intro a b c
    cases a <;> cases b <;> cases c <;>
      first
      | rfl
      | exact congrArg PVal.num (add_assoc _ _ _)
  zero_add := by
    intro a
    cases a <;>
      first
      | rfl
      | exact congrArg PVal.num (zero_add _)
  add_zero := by
    intro a
    cases a <;>
      first
      | rfl
      | exact congrArg PVal.num (add_zero _)
  add_comm := by
    intro a b
    cases a <;> cases b <;>
      first
      | rfl
      | exact congrArg PVal.num (add_comm _ _)
  nsmul := nsmulRec
  nsmul_zero := fun _ => rfl
  nsmul_succ := fun _ _ => rfl

/-- Result of a pandas element-wise float division: a float value or a
signed infinity (numpy divides by zero with a warning, never an
exception). -/
inductive EVal where
  | val : PVal → EVal
  | pinf : EVal
  | ninf : EVal
deriving DecidableEq, Repr

/-- pandas/numpy element-wise division `a / b`: `0/0` gives `NaN`,
`±x/0` gives `±inf`, `NaN` operands propagate. -/
def pandasDiv (a b : PVal) : EVal :=
  match a, b with
  | _, PVal.nan => EVal.val PVal.nan
  | PVal.nan, _ => EVal.val PVal.nan
  | PVal.num p, PVal.num q =>
    if q = 0 then
      if p = 0 then EVal.val PVal.nan
      else if 0 < p then EVal.pinf else EVal.ninf
    else EVal.val (PVal.num (p / q))

/-- Plain Python float division `a / b`: raises `ZeroDivisionError`
(modelled as `none`) when the divisor is exactly zero, `NaN` propagates
otherwise. -/
def pyDiv (a b : PVal) : Option PVal :=
  match b with
  | PVal.num q =>
    if q = 0 then none
    else some (match a with
      | PVal.num p => PVal.num (p / q)
      | PVal.nan => PVal.nan)
  | PVal.nan => some PVal.nan

/-- A `MonthlyInputs` row: `(InputType, Month, Value)`. -/
abbrev ParamTable := List (String × ℕ × ℚ)

/-- The membership test `input_type in self.parameters.index`. -/
def hasInputType (tbl : ParamTable) (t : String) : Bool :=
  tbl.any (fun r => r.1 == t)

/-- Whether the pivot `self.parameters` has a column for month `m`
(some row of any input type carries that month). -/
def hasMonthColumn (tbl : ParamTable) (m : ℕ) : Bool :=
  tbl.any (fun r => r.2.1 == m)

/-- The pivot cell content for `(t, m)` before `NaN` filling:
`aggfunc='first'` keeps the first row per key. -/
def firstValue (tbl : ParamTable) (t : String) (m : ℕ) : Option ℚ :=
  (tbl.find? (fun r => r.1 == t && r.2.1 == m)).map (fun r => r.2.2)

/-- The lookup `row.get(m, 0)` on the pivoted row of input type `t`: the default `0`
applies only when the pivot has no column `m` at all; an existing column
with a missing cell reads as `NaN`. -/
def cellValue (tbl : ParamTable) (t : String) (m : ℕ) : PVal :=
  if hasMonthColumn tbl m then
    match firstValue tbl t m with
    | some v => PVal.num v
    | none => PVal.nan
  else PVal.num 0

/-- The growth-rate lookup of the extrapolation branch:
`self.parameters.loc['GrowthRateM37Plus', 37] if 'GrowthRateM37Plus' in
self.parameters.index else 0.01`.  When the input type is present but the
pivot has no month-37 column, `DataFrame.loc` raises `KeyError`
(modelled as `none`); a present column with a missing cell reads `NaN`. -/
def growthLookup (tbl : ParamTable) : Option PVal :=
  if hasInputType tbl "GrowthRateM37Plus" then
    if hasMonthColumn tbl 37 then some (cellValue tbl "GrowthRateM37Plus" 37)
    else none
  else some (PVal.num (1 / 100))

/-- The `scenario_multipliers` dict shared verbatim by
`ProjectionValidator.interpolate_value` and
`ProjectionValidatorCorrected.get_accounts_with_scenario`. -/
def scenario_multipliers : List (String × ℚ) :=
  [("Base", 1), ("High_10", 11 / 10), ("Low_10", 9 / 10),
   ("High_25", 5 / 4), ("Low_25", 3 / 4), ("Custom", 1)]

/-- The lookup `scenario_multipliers.get(scenario, 1.0)`. -/
def scenario_multiplier (s : String) : ℚ :=
  (scenario_multipliers.lookup s).getD 1

/-- The recognized scenario names (the keys of `scenario_multipliers`). -/
def recognized_scenarios : List String :=
  scenario_multipliers.map Prod.fst

/-- Account metrics returned by `calculate_accounts`. -/
structure AccountsRec where
  total_accounts : PVal
  active_accounts : PVal
  checking_accounts : PVal
  savings_accounts : PVal
deriving DecidableEq, Repr

/-- Transaction volumes returned by `calculate_transactions`;
`total_volume` is `sum(transactions.values())` over the seven channels. -/
structure TransactionsRec where
  ach_incoming : PVal
  ach_outgoing : PVal
  rtp_incoming : PVal
  rtp_outgoing : PVal
  wire_incoming : PVal
  wire_outgoing : PVal
  debit_card : PVal
  total_volume : PVal
deriving DecidableEq, Repr

/-- Channel revenues returned by `calculate_revenue`;
`total_revenue` is `sum(revenue.values())` over the seven channels. -/
structure RevenueRec where
  ach_incoming : PVal
  ach_outgoing : PVal
  rtp_incoming : PVal
  rtp_outgoing : PVal
  wire_incoming : PVal
  wire_outgoing : PVal
  debit_card : PVal
  total_revenue : PVal
deriving DecidableEq, Repr

/-- A cell of a row of the `compare_scenarios` DataFrame. -/
inductive Cell where
  | str : String → Cell
  | nat : ℕ → Cell
  | fl : PVal → Cell
  | ext : EVal → Cell
deriving DecidableEq, Repr

/-- A row of the `compare_scenarios` DataFrame, as an ordered
column-name/value association list. -/
abbrev CompRow := List (String × Cell)

namespace ProjectionValidatorCorrected

/-- The method `ProjectionValidatorCorrected.interpolate_value` — no scenario
argument; returns the pure interpolated value (or raises, in the
degenerate growth-rate case: see `growthLookup`). -/
def interpolate_value (tbl : ParamTable) (input_type : String) (month : ℕ) :
    Option PVal :=
  if hasInputType tbl input_type = false then some (PVal.num 0)
  else
    let m1_val := cellValue tbl input_type 1
    let m6_val := cellValue tbl input_type 6
    let m12_val := cellValue tbl input_type 12
    let m24_val := cellValue tbl input_type 24
    let m36_val := cellValue tbl input_type 36
    if month = 1 then some m1_val
    else if month ≤ 6 then
      some (m1_val + (m6_val - m1_val) * PVal.num ((month : ℚ) - 1) / PVal.num 5)
    else if month ≤ 12 then
      some (m6_val + (m12_val - m6_val) * PVal.num ((month : ℚ) - 6) / PVal.num 6)
    else if month ≤ 24 then
      some (m12_val + (m24_val - m12_val) * PVal.num ((month : ℚ) - 12) / PVal.num 12)
    else if month ≤ 36 then
      some (m24_val + (m36_val - m24_val) * PVal.num ((month : ℚ) - 24) / PVal.num 12)
    else
      (growthLookup tbl).map (fun growth_rate =>
        m36_val * ((1 + growth_rate) ^ (month - 36)))

/-- The method `get_accounts_with_scenario`: the scenario multiplier is applied to
the interpolated `Accounts` value only. -/
def get_accounts_with_scenario (tbl : ParamTable) (month : ℕ) (scenario : String) :
    Option PVal :=
  (interpolate_value tbl "Accounts" month).map
    (fun base_accounts => base_accounts * PVal.num (scenario_multiplier scenario))

/-- The method `calculate_accounts`: shares are interpolated without scenario
adjustment. -/
def calculate_accounts (tbl : ParamTable) (month : ℕ) (scenario : String) :
    Option AccountsRec := do
  let total_accounts ← get_accounts_with_scenario tbl month scenario
  let active_share ← interpolate_value tbl "ActiveShare" month
  let checking_share ← interpolate_value tbl "CheckingShare" month
  let savings_share ← interpolate_value tbl "SavingShare" month
  let active_accounts := total_accounts * active_share
  some ⟨total_accounts, active_accounts,
        active_accounts * checking_share, active_accounts * savings_share⟩

/-- The method `calculate_transactions`: per-active rates are interpolated without
scenario adjustment. -/
def calculate_transactions (tbl : ParamTable) (month : ℕ) (scenario : String) :
    Option TransactionsRec := do
  let accounts ← calculate_accounts tbl month scenario
  let a := accounts.active_accounts
  let achIn ← interpolate_value tbl "ACHinPerActive" month
  let achOut ← interpolate_value tbl "ACHoutPerActive" month
  let rtpIn ← interpolate_value tbl "RTPinPerActive" month
  let rtpOut ← interpolate_value tbl "RTPoutPerActive" month
  let wireIn ← interpolate_value tbl "WireInPerActive" month
  let wireOut ← interpolate_value tbl "WireOutPerActive" month
  let debit ← interpolate_value tbl "DebitCardTransactionsPerActive" month
  let t1 := a * achIn
  let t2 := a * achOut
  let t3 := a * rtpIn
  let t4 := a * rtpOut
  let t5 := a * wireIn
  let t6 := a * wireOut
  let t7 := a * debit
  some ⟨t1, t2, t3, t4, t5, t6, t7,
        0 + t1 + t2 + t3 + t4 + t5 + t6 + t7⟩

/-- The method `calculate_revenue`: fee rates are interpolated without scenario
adjustment. -/
def calculate_revenue (tbl : ParamTable) (month : ℕ) (scenario : String) :
    Option RevenueRec := do
  let transactions ← calculate_transactions tbl month scenario
  let fAchIn ← interpolate_value tbl "ACHinRate" month
  let fAchOut ← interpolate_value tbl "ACHoutRate" month
  let fRtpIn ← interpolate_value tbl "RTPinRate" month
  let fRtpOut ← interpolate_value tbl "RTPoutRate" month
  let fWireIn ← interpolate_value tbl "WireInRate" month
  let fWireOut ← interpolate_value tbl "WireOutRate" month
  let fDebit ← interpolate_value tbl "DebitCardTransactionRate" month
  let r1 := transactions.ach_incoming * fAchIn
  let r2 := transactions.ach_outgoing * fAchOut
  let r3 := transactions.rtp_incoming * fRtpIn
  let r4 := transactions.rtp_outgoing * fRtpOut
  let r5 := transactions.wire_incoming * fWireIn
  let r6 := transactions.wire_outgoing * fWireOut
  let r7 := transactions.debit_card * fDebit
  some ⟨r1, r2, r3, r4, r5, r6, r7,
        0 + r1 + r2 + r3 + r4 + r5 + r6 + r7⟩

end ProjectionValidatorCorrected

/-- The guarded ratio `if accounts['total_accounts'] > 0 then revenue/accounts else 0`
(the guarded ratio used by both `compare_scenarios` methods); the
division cannot raise because the guard forces a positive numeric
divisor. -/
def guardedRevenuePerAccount (total_revenue total_accounts : PVal) : PVal :=
  if PVal.gt total_accounts 0 then total_revenue / total_accounts
  else PVal.num 0

/-- Value of a numeric column of a `CompRow` (`NaN` when absent, which
by construction never happens for the columns we read). -/
def getCol (r : CompRow) (field : String) : PVal :=
  match r.lookup field with
  | some (Cell.fl v) => v
  | _ => PVal.nan

/-- The extraction `df[df['Scenario'] == s][field].iloc[0]`: the named column of the
first row of a given scenario. -/
def scenarioCol (rows : List CompRow) (s : String) (field : String) : PVal :=
  match rows.find? (fun r => decide (r.lookup "Scenario" = some (Cell.str s))) with
  | some r => getCol r field
  | none => PVal.nan

namespace ProjectionValidatorCorrected

/-- The scenario list iterated by `compare_scenarios`. -/
def scenario_list : List String :=
  ["Base", "High_10", "Low_10", "High_25", "Low_25"]

/-- One row of the comparison DataFrame, before the variance columns. -/
def comparison_row (tbl : ParamTable) (month : ℕ) (scenario : String) :
    Option CompRow := do
  let accounts ← calculate_accounts tbl month scenario
  let revenue ← calculate_revenue tbl month scenario
  some [("Scenario", Cell.str scenario),
        ("Month", Cell.nat month),
        ("TotalAccounts", Cell.fl accounts.total_accounts),
        ("ActiveAccounts", Cell.fl accounts.active_accounts),
        ("TotalRevenue", Cell.fl revenue.total_revenue),
        ("RevenuePerAccount",
         Cell.fl (guardedRevenuePerAccount revenue.total_revenue accounts.total_accounts))]

/-- The method `ProjectionValidatorCorrected.compare_scenarios`: one row per
scenario, then the two variance-from-base columns are appended from the
`Base` row of the same DataFrame. -/
def compare_scenarios (tbl : ParamTable) (month : ℕ) : Option (List CompRow) := do
  let rows ← scenario_list.mapM (fun s => comparison_row tbl month s)
  let base_revenue := scenarioCol rows "Base" "TotalRevenue"
  let base_accounts := scenarioCol rows "Base" "TotalAccounts"
  some (rows.map (fun r =>
    r ++ [("VarianceFromBase_Revenue",
           Cell.ext (pandasDiv (getCol r "TotalRevenue" - base_revenue) base_revenue)),
          ("VarianceFromBase_Accounts",
           Cell.ext (pandasDiv (getCol r "TotalAccounts" - base_accounts) base_accounts))]))

end ProjectionValidatorCorrected

namespace ProjectionValidator

/-- The method `ProjectionValidator.interpolate_value` — the naive variant: the body
computes the same base interpolation as the corrected class, but the
scenario multiplier is applied to EVERY interpolated value on return
(the early `return 0` for a missing input type skips the multiplier). -/
def interpolate_value (tbl : ParamTable) (input_type : String) (month : ℕ)
    (scenario : String) : Option PVal :=
  if hasInputType tbl input_type = false then some (PVal.num 0)
  else
    let m1_val := cellValue tbl input_type 1
    let m6_val := cellValue tbl input_type 6
    let m12_val := cellValue tbl input_type 12
    let m24_val := cellValue tbl input_type 24
    let m36_val := cellValue tbl input_type 36
    let base : Option PVal :=
      if month = 1 then some m1_val
      else if month ≤ 6 then
        some (m1_val + (m6_val - m1_val) * PVal.num ((month : ℚ) - 1) / PVal.num 5)
      else if month ≤ 12 then
        some (m6_val + (m12_val - m6_val) * PVal.num ((month : ℚ) - 6) / PVal.num 6)
      else if month ≤ 24 then
        some (m12_val + (m24_val - m12_val) * PVal.num ((month : ℚ) - 12) / PVal.num 12)
      else if month ≤ 36 then
        some (m24_val + (m36_val - m24_val) * PVal.num ((month : ℚ) - 24) / PVal.num 12)
      else
        (growthLookup tbl).map (fun growth_rate =>
          m36_val * ((1 + growth_rate) ^ (month - 36)))
    base.map (fun base_value => base_value * PVal.num (scenario_multiplier scenario))

/-- The method `ProjectionValidator.calculate_accounts`: every lookup goes through
the scenario-adjusted interpolation. -/
def calculate_accounts (tbl : ParamTable) (month : ℕ) (scenario : String) :
    Option AccountsRec := do
  let total_accounts ← interpolate_value tbl "Accounts" month scenario
  let active_share ← interpolate_value tbl "ActiveShare" month scenario
  let checking_share ← interpolate_value tbl "CheckingShare" month scenario
  let savings_share ← interpolate_value tbl "SavingShare" month scenario
  let active_accounts := total_accounts * active_share
  some ⟨total_accounts, active_accounts,
        active_accounts * checking_share, active_accounts * savings_share⟩

/-- The method `ProjectionValidator.calculate_transactions`. -/
def calculate_transactions (tbl : ParamTable) (month : ℕ) (scenario : String) :
    Option TransactionsRec := do
  let accounts ← calculate_accounts tbl month scenario
  let a := accounts.active_accounts
  let achIn ← interpolate_value tbl "ACHinPerActive" month scenario
  let achOut ← interpolate_value tbl "ACHoutPerActive" month scenario
  let rtpIn ← interpolate_value tbl "RTPinPerActive" month scenario
  let rtpOut ← interpolate_value tbl "RTPoutPerActive" month scenario
  let wireIn ← interpolate_value tbl "WireInPerActive" month scenario
  let wireOut ← interpolate_value tbl "WireOutPerActive" month scenario
  let debit ← interpolate_value tbl "DebitCardTransactionsPerActive" month scenario
  let t1 := a * achIn
  let t2 := a * achOut
  let t3 := a * rtpIn
  let t4 := a * rtpOut
  let t5 := a * wireIn
  let t6 := a * wireOut
  let t7 := a * debit
  some ⟨t1, t2, t3, t4, t5, t6, t7,
        0 + t1 + t2 + t3 + t4 + t5 + t6 + t7⟩

/-- The method `ProjectionValidator.calculate_revenue`. -/
def calculate_revenue (tbl : ParamTable) (month : ℕ) (scenario : String) :
    Option RevenueRec := do
  let transactions ← calculate_transactions tbl month scenario
  let fAchIn ← interpolate_value tbl "ACHinRate" month scenario
  let fAchOut ← interpolate_value tbl "ACHoutRate" month scenario
  let fRtpIn ← interpolate_value tbl "RTPinRate" month scenario
  let fRtpOut ← interpolate_value tbl "RTPoutRate" month scenario
  let fWireIn ← interpolate_value tbl "WireInRate" month scenario
  let fWireOut ← interpolate_value tbl "WireOutRate" month scenario
  let fDebit ← interpolate_value tbl "DebitCardTransactionRate" month scenario
  let r1 := transactions.ach_incoming * fAchIn
  let r2 := transactions.ach_outgoing * fAchOut
  let r3 := transactions.rtp_incoming * fRtpIn
  let r4 := transactions.rtp_outgoing * fRtpOut
  let r5 := transactions.wire_incoming * fWireIn
  let r6 := transactions.wire_outgoing * fWireOut
  let r7 := transactions.debit_card * fDebit
  some ⟨r1, r2, r3, r4, r5, r6, r7,
        0 + r1 + r2 + r3 + r4 + r5 + r6 + r7⟩

/-- One row of the naive comparison DataFrame (same columns as the
corrected one). -/
def comparison_row (tbl : ParamTable) (month : ℕ) (scenario : String) :
    Option CompRow := do
  let accounts ← calculate_accounts tbl month scenario
  let revenue ← calculate_revenue tbl month scenario
  some [("Scenario", Cell.str scenario),
        ("Month", Cell.nat month),
        ("TotalAccounts", Cell.fl accounts.total_accounts),
        ("ActiveAccounts", Cell.fl accounts.active_accounts),
        ("TotalRevenue", Cell.fl revenue.total_revenue),
        ("RevenuePerAccount",
         Cell.fl (guardedRevenuePerAccount revenue.total_revenue accounts.total_accounts))]

/-- The method `ProjectionValidator.compare_scenarios`: appends a single
variance-from-base column, for total revenue only. -/
def compare_scenarios (tbl : ParamTable) (month : ℕ) : Option (List CompRow) := do
  let rows ← ProjectionValidatorCorrected.scenario_list.mapM
    (fun s => comparison_row tbl month s)
  let base_revenue := scenarioCol rows "Base" "TotalRevenue"
  some (rows.map (fun r =>
    r ++ [("VarianceFromBase",
           Cell.ext (pandasDiv (getCol r "TotalRevenue" - base_revenue) base_revenue))]))

/-- The per-month row of the key-metrics summary built by
`ProjectionValidator.export_validation_results` (item 4): the
`RevenuePerAccount` division there is NOT guarded, so it raises
`ZeroDivisionError` when `total_accounts` is exactly zero. -/
def key_metrics_row (tbl : ParamTable) (month : ℕ) : Option CompRow := do
  let accounts ← calculate_accounts tbl month "Base"
  let revenue ← calculate_revenue tbl month "Base"
  let rpa ← pyDiv revenue.total_revenue accounts.total_accounts
  some [("Month", Cell.nat month),
        ("TotalAccounts", Cell.fl accounts.total_accounts),
        ("TotalRevenue", Cell.fl revenue.total_revenue),
        ("RevenuePerAccount", Cell.fl rpa)]

end ProjectionValidator

/-- The value a pipeline stage of the corrected validator reads for
input type `t` during a run under scenario `scenario`: the corrected
`interpolate_value` takes no scenario argument, so the run's scenario
cannot influence the value (the parameter is ignored by construction,
which is exactly the isolation property). -/
def stage_input (tbl : ParamTable) (t : String) (month : ℕ) (_scenario : String) :
    Option PVal :=
  ProjectionValidatorCorrected.interpolate_value tbl t month

/-- The pairs of consecutive anchors of the fixed anchor set
`[1, 6, 12, 24, 36]`. -/
def consecutiveAnchors : List (ℕ × ℕ) := [(1, 6), (6, 12), (12, 24), (24, 36)]

/-- The linear band expression of the source,
`va + (vb - va) * fraction`, abstracted over the two anchor cells and
the interpolation fraction. -/
def bandValue (va vb : PVal) (frac : ℚ) : PVal :=
  va + (vb - va) * PVal.num frac

/-- Product of two possibly-raising pipeline outputs. -/
def optMul (a b : Option PVal) : Option PVal := do
  let x ← a
  let y ← b
  some (x * y)

/-- Scaling of a possibly-raising pipeline output by a rational factor. -/
def scaleO (c : ℚ) (x : Option PVal) : Option PVal :=
  x.map (fun v => PVal.num c * v)

/-- Projection `total_accounts` of the corrected pipeline. -/
def corr_total_accounts (tbl : ParamTable) (month : ℕ) (s : String) : Option PVal :=
  (ProjectionValidatorCorrected.calculate_accounts tbl month s).map AccountsRec.total_accounts

/-- Projection `total_revenue` of the corrected pipeline. -/
def corr_total_revenue (tbl : ParamTable) (month : ℕ) (s : String) : Option PVal :=
  (ProjectionValidatorCorrected.calculate_revenue tbl month s).map RevenueRec.total_revenue

/-- Projection `total_accounts` of the naive pipeline. -/
def naive_total_accounts (tbl : ParamTable) (month : ℕ) (s : String) : Option PVal :=
  (ProjectionValidator.calculate_accounts tbl month s).map AccountsRec.total_accounts

/-- Projection `active_accounts` of the naive pipeline. -/
def naive_active_accounts (tbl : ParamTable) (month : ℕ) (s : String) : Option PVal :=
  (ProjectionValidator.calculate_accounts tbl month s).map AccountsRec.active_accounts

/-- Projection `total_volume` of the naive pipeline. -/
def naive_total_volume (tbl : ParamTable) (month : ℕ) (s : String) : Option PVal :=
  (ProjectionValidator.calculate_transactions tbl month s).map TransactionsRec.total_volume

/-- Projection `total_revenue` of the naive pipeline. -/
def naive_total_revenue (tbl : ParamTable) (month : ℕ) (s : String) : Option PVal :=
  (ProjectionValidator.calculate_revenue tbl month s).map RevenueRec.total_revenue

/-- Whether a comparison row carries the accounts variance column. -/
def hasAccountsVarianceColumn (r : CompRow) : Bool :=
  (r.lookup "VarianceFromBase_Accounts").isSome

/-- Test table from the spec's concrete scenarios: the `Accounts` anchors
`{1: 1000, 6: 1500, 12: 2000, 24: 3000, 36: 4000}` together with a fully
specified `ActiveShare` series (so that no pivot cell is `NaN`). -/
def sampleTable : ParamTable :=
  [("Accounts", 1, 1000), ("Accounts", 6, 1500), ("Accounts", 12, 2000),
   ("Accounts", 24, 3000), ("Accounts", 36, 4000),
   ("ActiveShare", 1, 1 / 2), ("ActiveShare", 6, 1 / 2),
   ("ActiveShare", 12, 1 / 2), ("ActiveShare", 24, 1 / 2),
   ("ActiveShare", 36, 1 / 2)]

/-- The spec's extrapolation scenario: only the month-36 `Accounts`
anchor, no growth-rate entry. -/
def extrapolationTable : ParamTable := [("Accounts", 36, 4000)]

/-- A table where the `GrowthRateM37Plus` input type exists but no row of
any input type carries month 37: the growth lookup raises `KeyError`. -/
def badGrowthTable : ParamTable :=
  [("GrowthRateM37Plus", 1, 5), ("Accounts", 36, 4000)]

/-- A table where input type `A` has a month-6 value but no month-1
value, while the month-1 column exists (input type `B` has one): the
pivot cell `(A, 1)` reads `NaN`. -/
def gapTable : ParamTable := [("A", 6, 10), ("B", 1, 1)]

/-- A table where the `(A, 12)` pivot cell is `NaN` (the month-12 column
exists through `B`): the band starting at month 6 is `NaN`-contaminated
while the band ending there is not. -/
def gapTable2 : ParamTable := [("A", 1, 1), ("A", 6, 10), ("B", 12, 1)]

theorem PVal.num_add (a b : ℚ) : (PVal.num a) + (PVal.num b) = PVal.num (a + b) := rfl

theorem PVal.num_mul (a b : ℚ) : (PVal.num a) * (PVal.num b) = PVal.num (a * b) := rfl

theorem PVal.num_sub (a b : ℚ) : (PVal.num a) - (PVal.num b) = PVal.num (a - b) := rfl

theorem PVal.num_div (a b : ℚ) : (PVal.num a) / (PVal.num b) = PVal.num (a / b) := rfl

theorem PVal.nan_add (x : PVal) : PVal.nan + x = PVal.nan := by cases x <;> rfl

theorem PVal.add_nan (x : PVal) : x + PVal.nan = PVal.nan := by cases x <;> rfl

theorem PVal.nan_mul (x : PVal) : PVal.nan * x = PVal.nan := by cases x <;> rfl

theorem PVal.mul_nan (x : PVal) : x * PVal.nan = PVal.nan := by cases x <;> rfl

theorem PVal.nan_sub (x : PVal) : PVal.nan - x = PVal.nan := by cases x <;> rfl

theorem PVal.sub_nan (x : PVal) : x - PVal.nan = PVal.nan := by cases x <;> rfl

theorem PVal.one_def : (1 : PVal) = PVal.num 1 := rfl

theorem PVal.zero_def : (0 : PVal) = PVal.num 0 := rfl

theorem PVal.num_pow (a : ℚ) (n : ℕ) : (PVal.num a) ^ n = PVal.num (a ^ n) := by
  induction n with
  | zero => simp [pow_zero, PVal.one_def]
  | succ k ih => rw [pow_succ, pow_succ, ih, PVal.num_mul]

/-- Right distributivity of `PVal` multiplication over addition
(`NaN` absorbs on both sides, so the law is unconditional). -/
theorem PVal.add_mul_right (x y z : PVal) : (x + y) * z = x * z + y * z := by
  cases x <;> cases y <;> cases z <;>
    simp only [PVal.num_add, PVal.num_mul, PVal.nan_add, PVal.add_nan,
      PVal.nan_mul, PVal.mul_nan, add_mul]

/-- Pulling two rational scalars out of a product of scaled factors. -/
theorem PVal.mul_num_mul_num (x y : PVal) (c d : ℚ) :
    (x * PVal.num c) * (y * PVal.num d) = (x * y) * PVal.num (c * d) := by
  rw [mul_mul_mul_comm, PVal.num_mul]

/-- Pulling a rational scalar past a trailing factor. -/
theorem PVal.mul_num_mul (x : PVal) (c : ℚ) (y : PVal) :
    (x * PVal.num c) * y = (x * y) * PVal.num c := by
  rw [mul_right_comm]

theorem PVal.mul_num_one (x : PVal) : x * PVal.num 1 = x := mul_one x

theorem PVal.zero_mul_num (c : ℚ) : (0 : PVal) * PVal.num c = 0 := by
  rw [PVal.zero_def, PVal.num_mul, zero_mul]

theorem PVal.mul_num_div_num (x : PVal) (c d : ℚ) :
    x * PVal.num c / PVal.num d = x * PVal.num (c / d) := by
  cases x with
  | num a => rw [PVal.num_mul, PVal.num_div, PVal.num_mul, mul_div_assoc]
  | nan => rw [PVal.nan_mul, PVal.nan_mul]; rfl

theorem scenario_multiplier_base : scenario_multiplier "Base" = 1 := by decide

/-- Claim C1 — scenario isolation of the corrected pipeline.  The
interpolated value any pipeline stage reads for an input type other than
`Accounts` is identical under any two scenarios (the corrected
`interpolate_value` takes no scenario argument at all), and two
scenarios that resolve to the same multiplier produce identical
accounts, transactions and revenue records: the scenario name reaches
the derived records only through the multiplier applied to the
interpolated `Accounts` value inside `get_accounts_with_scenario`. -/
theorem c1_scenario_isolation (tbl : ParamTable) (month : ℕ) (s1 s2 : String) :
    (∀ t : String, t ≠ "Accounts" →
      stage_input tbl t month s1 = stage_input tbl t month s2) ∧
    (scenario_multiplier s1 = scenario_multiplier s2 →
      ProjectionValidatorCorrected.calculate_accounts tbl month s1 =
        ProjectionValidatorCorrected.calculate_accounts tbl month s2 ∧
      ProjectionValidatorCorrected.calculate_transactions tbl month s1 =
        ProjectionValidatorCorrected.calculate_transactions tbl month s2 ∧
      ProjectionValidatorCorrected.calculate_revenue tbl month s1 =
        ProjectionValidatorCorrected.calculate_revenue tbl month s2) := by
  constructor
  · intro t _
    rfl
  · intro h
    refine ⟨?_, ?_, ?_⟩ <;>
      simp only [ProjectionValidatorCorrected.calculate_revenue,
        ProjectionValidatorCorrected.calculate_transactions,
        ProjectionValidatorCorrected.calculate_accounts,
        ProjectionValidatorCorrected.get_accounts_with_scenario, h]

/-- Witness for C1 at the sample table, month 3, scenarios `Base` and
`Custom` (distinct names, both of multiplier `1.0`). -/
theorem c1_scenario_isolation_witness :
    stage_input sampleTable "ActiveShare" 3 "Base" =
      stage_input sampleTable "ActiveShare" 3 "Custom" ∧
    ProjectionValidatorCorrected.calculate_accounts sampleTable 3 "Base" =
      ProjectionValidatorCorrected.calculate_accounts sampleTable 3 "Custom" ∧
    ProjectionValidatorCorrected.calculate_transactions sampleTable 3 "Base" =
      ProjectionValidatorCorrected.calculate_transactions sampleTable 3 "Custom" ∧
    ProjectionValidatorCorrected.calculate_revenue sampleTable 3 "Base" =
      ProjectionValidatorCorrected.calculate_revenue sampleTable 3 "Custom" := by
  obtain ⟨hin, hrec⟩ := c1_scenario_isolation sampleTable 3 "Base" "Custom"
  exact ⟨hin "ActiveShare" (by decide), hrec (by decide)⟩

/-- Claim C4 — piecewise-linear band formula: between two consecutive
anchors `a < b` the interpolated value is
`value(a) + (value(b) - value(a)) * (month - a) / (b - a)` (the anchor
values being the pivot cells the source reads); in particular the spec's
concrete case `interpolate("Accounts", 3) = 1200` on the sample table. -/
theorem c4_band_linearity :
    (∀ (tbl : ParamTable) (t : String) (month a b : ℕ),
      hasInputType tbl t = true →
      (a, b) ∈ consecutiveAnchors →
      a < month → month < b →
      ProjectionValidatorCorrected.interpolate_value tbl t month =
        some (cellValue tbl t a + (cellValue tbl t b - cellValue tbl t a) *
          PVal.num (((month : ℚ) - (a : ℚ)) / ((b : ℚ) - (a : ℚ))))) ∧
    ProjectionValidatorCorrected.interpolate_value sampleTable "Accounts" 3 =
      some (PVal.num 1200) := by
  constructor
  · intro tbl t month a b ht hmem h1 h2
    simp only [consecutiveAnchors, List.mem_cons, List.not_mem_nil, or_false,
      Prod.mk.injEq] at hmem
    rcases hmem with ⟨rfl, rfl⟩ | ⟨rfl, rfl⟩ | ⟨rfl, rfl⟩ | ⟨rfl, rfl⟩ <;>
      · simp only [ProjectionValidatorCorrected.interpolate_value, ht,
          Bool.true_eq_false, if_false,
          if_neg (by omega : ¬ month = 1)]
        repeat rw [if_neg (by omega)]
        rw [if_pos (by omega), PVal.mul_num_div_num]
        norm_num
  · norm_num [ProjectionValidatorCorrected.interpolate_value, sampleTable, cellValue,
      firstValue, hasInputType, hasMonthColumn, PVal.num_add, PVal.num_sub,
      PVal.num_mul, PVal.num_div]

/-- Witness for C4: the (1,6) band at the sample table, month 3
(where the formula instance evaluates to the spec's `1200`). -/
theorem c4_band_linearity_witness :
    ProjectionValidatorCorrected.interpolate_value sampleTable "Accounts" 3 =
      some (cellValue sampleTable "Accounts" 1 +
        (cellValue sampleTable "Accounts" 6 - cellValue sampleTable "Accounts" 1) *
          PVal.num ((((3 : ℕ) : ℚ) - ((1 : ℕ) : ℚ)) / (((6 : ℕ) : ℚ) - ((1 : ℕ) : ℚ)))) :=
  c4_band_linearity.1 sampleTable "Accounts" 3 1 6 (by decide) (by decide)
    (by decide) (by decide)

/-- Counterexample to C3 as stated: on `gapTable` the month-6 value
of input type `A` is stored as `10`, but because the `(A, 1)` pivot cell
reads `NaN` (the month-1 column exists through `B`), the month-6
interpolation returns `NaN`, not the stored anchor value; and on
`gapTable2` the band ending at month 6 and the band starting at
month 6 disagree at the boundary (`10` versus `NaN`). -/
theorem c3_counterexample :
    firstValue gapTable "A" 6 = some 10 ∧
    ProjectionValidatorCorrected.interpolate_value gapTable "A" 6 = some PVal.nan ∧
    some PVal.nan ≠ some (PVal.num 10) ∧
    bandValue (cellValue gapTable2 "A" 1) (cellValue gapTable2 "A" 6)
        ((6 - 1) / 5) ≠
      bandValue (cellValue gapTable2 "A" 6) (cellValue gapTable2 "A" 12)
        ((6 - 6) / 6) := by
  refine ⟨rfl, ?_, by decide, ?_⟩
  · norm_num [ProjectionValidatorCorrected.interpolate_value, gapTable, cellValue,
      firstValue, hasInputType, hasMonthColumn,
      if_neg (show ¬("B" : String) = "A" by decide), PVal.nan_add, PVal.add_nan,
      PVal.nan_sub, PVal.sub_nan, PVal.nan_mul, PVal.mul_nan]
  · have hL : bandValue (cellValue gapTable2 "A" 1) (cellValue gapTable2 "A" 6)
        ((6 - 1) / 5) = PVal.num 10 := by
      norm_num [bandValue, gapTable2, cellValue, firstValue, hasMonthColumn,
        PVal.num_add, PVal.num_sub, PVal.num_mul]
    have hR : bandValue (cellValue gapTable2 "A" 6) (cellValue gapTable2 "A" 12)
        ((6 - 6) / 6) = PVal.nan := by
      norm_num [bandValue, gapTable2, cellValue, firstValue, hasMonthColumn,
        if_neg (show ¬("B" : String) = "A" by decide), PVal.num_add, PVal.num_sub,
        PVal.num_mul, PVal.nan_sub, PVal.sub_nan, PVal.nan_mul, PVal.mul_nan,
        PVal.add_nan, PVal.nan_add]
    rw [hL, hR]
    decide

/-- Claim C3, amended — anchor exactness and band continuity hold
provided every anchor cell of the input type resolves to a number (each
anchor month's column is either absent from the pivot or carries a value
for this input type; a stored value always satisfies this).  Then the
interpolation is exact at all five anchors, and at each interior anchor
the band ending there and the band starting there agree (at month 36 the
starting band is the extrapolation, whose factor `(1+g)^0` is `1` for
every growth value `g`). -/
theorem c3_anchor_exactness_and_continuity (tbl : ParamTable) (t : String)
    (v1 v6 v12 v24 v36 : ℚ)
    (ht : hasInputType tbl t = true)
    (h1 : cellValue tbl t 1 = PVal.num v1)
    (h6 : cellValue tbl t 6 = PVal.num v6)
    (h12 : cellValue tbl t 12 = PVal.num v12)
    (h24 : cellValue tbl t 24 = PVal.num v24)
    (h36 : cellValue tbl t 36 = PVal.num v36) :
    (ProjectionValidatorCorrected.interpolate_value tbl t 1 = some (PVal.num v1) ∧
     ProjectionValidatorCorrected.interpolate_value tbl t 6 = some (PVal.num v6) ∧
     ProjectionValidatorCorrected.interpolate_value tbl t 12 = some (PVal.num v12) ∧
     ProjectionValidatorCorrected.interpolate_value tbl t 24 = some (PVal.num v24) ∧
     ProjectionValidatorCorrected.interpolate_value tbl t 36 = some (PVal.num v36)) ∧
    (bandValue (PVal.num v1) (PVal.num v6) ((6 - 1) / 5) =
       bandValue (PVal.num v6) (PVal.num v12) ((6 - 6) / 6) ∧
     bandValue (PVal.num v6) (PVal.num v12) ((12 - 6) / 6) =
       bandValue (PVal.num v12) (PVal.num v24) ((12 - 12) / 12) ∧
     bandValue (PVal.num v12) (PVal.num v24) ((24 - 12) / 12) =
       bandValue (PVal.num v24) (PVal.num v36) ((24 - 24) / 12) ∧
     ∀ g : PVal, bandValue (PVal.num v24) (PVal.num v36) ((36 - 24) / 12) =
       PVal.num v36 * (1 + g) ^ (36 - 36)) := by
  constructor
  · refine ⟨?_, ?_, ?_, ?_, ?_⟩ <;>
      · simp only [ProjectionValidatorCorrected.interpolate_value, ht,
          Bool.true_eq_false, if_false, h1, h6, h12, h24, h36]
        norm_num [PVal.num_add, PVal.num_sub, PVal.num_mul, PVal.num_div]
  · refine ⟨?_, ?_, ?_, ?_⟩
    · norm_num [bandValue, PVal.num_add, PVal.num_sub, PVal.num_mul]
    · norm_num [bandValue, PVal.num_add, PVal.num_sub, PVal.num_mul]
    · norm_num [bandValue, PVal.num_add, PVal.num_sub, PVal.num_mul]
    · intro g
      rw [show (36 - 36 : ℕ) = 0 from rfl, pow_zero, mul_one]
      norm_num [bandValue, PVal.num_add, PVal.num_sub, PVal.num_mul]

/-- Witness for C3 (amended) at the sample table: the month-6 anchor is
returned exactly. -/
theorem c3_anchor_exactness_witness :
    ProjectionValidatorCorrected.interpolate_value sampleTable "Accounts" 6 =
      some (PVal.num 1500) :=
  (c3_anchor_exactness_and_continuity sampleTable "Accounts" 1000 1500 2000 3000 4000
    (by decide) (by decide) (by decide) (by decide) (by decide) (by decide)).1.2.1

/-- A stored pivot value forces both the input-type membership and the
month column to exist. -/
theorem firstValue_mem (tbl : ParamTable) (t : String) (m : ℕ) (v : ℚ)
    (h : firstValue tbl t m = some v) :
    hasInputType tbl t = true ∧ hasMonthColumn tbl m = true := by
  unfold firstValue at h
  rcases Option.map_eq_some'.mp h with ⟨r, hfind, hval⟩
  have hmem := List.mem_of_find?_eq_some hfind
  have hp := List.find?_some hfind
  rw [Bool.and_eq_true, beq_iff_eq, beq_iff_eq] at hp
  constructor
  · exact List.any_eq_true.mpr ⟨r, hmem, by rw [beq_iff_eq]; exact hp.1⟩
  · exact List.any_eq_true.mpr ⟨r, hmem, by rw [beq_iff_eq]; exact hp.2⟩

/-- Counterexample to C5 as stated: on `badGrowthTable` the
`GrowthRateM37Plus` input type has no month-37 value, so by the claim the
default `g = 0.01` should apply and month 40 should evaluate to
`4000 * 1.01^4`; the code instead raises `KeyError` (the pivot has no
month-37 column for `DataFrame.loc` to find). -/
theorem c5_counterexample :
    ProjectionValidatorCorrected.interpolate_value badGrowthTable "Accounts" 40 = none ∧
    (none : Option PVal) ≠ some (PVal.num (4000 * (101 / 100) ^ 4)) := by
  refine ⟨?_, by simp⟩
  norm_num [ProjectionValidatorCorrected.interpolate_value, badGrowthTable, cellValue,
    firstValue, hasInputType, hasMonthColumn, growthLookup]

/-- Claim C5, amended — the extrapolation law
`interpolate(t, month) = value(t, 36) * (1 + g)^(month - 36)` holds for
every input type present in the table and every month above 36, provided
the growth rate resolves: either `GrowthRateM37Plus` is absent entirely
(then `g = 0.01`), or a month-37 value is actually stored for it (then
`g` is that value).  When the input type is present without a stored
month-37 value the code raises `KeyError` or propagates `NaN` instead of
applying the claimed `0.01` default. -/
theorem c5_extrapolation_amended (tbl : ParamTable) (t : String) (month : ℕ) (g : ℚ)
    (hm : 36 < month) (ht : hasInputType tbl t = true)
    (hg : (hasInputType tbl "GrowthRateM37Plus" = false ∧ g = 1 / 100) ∨
      firstValue tbl "GrowthRateM37Plus" 37 = some g) :
    ProjectionValidatorCorrected.interpolate_value tbl t month =
      some (cellValue tbl t 36 * (1 + PVal.num g) ^ (month - 36)) := by
  have hgl : growthLookup tbl = some (PVal.num g) := by
    rcases hg with ⟨habs, rfl⟩ | hstore
    · simp [growthLookup, habs]
    · obtain ⟨hT, hM⟩ := firstValue_mem tbl "GrowthRateM37Plus" 37 g hstore
      simp [growthLookup, hT, hM, cellValue, hstore]
  simp only [ProjectionValidatorCorrected.interpolate_value, ht,
    Bool.true_eq_false, if_false]
  rw [if_neg (by omega), if_neg (by omega), if_neg (by omega), if_neg (by omega),
    if_neg (by omega), hgl]
  rfl

/-- Witness for C5 (amended): the spec's concrete extrapolation scenario,
`interpolate("Accounts", 40) = 4000 * 1.01^4` on a table with only the
month-36 anchor and no growth-rate entry. -/
theorem c5_extrapolation_witness :
    ProjectionValidatorCorrected.interpolate_value extrapolationTable "Accounts" 40 =
      some (PVal.num (4000 * (101 / 100) ^ 4)) := by
  rw [c5_extrapolation_amended extrapolationTable "Accounts" 40 (1 / 100) (by omega)
    (by decide) (Or.inl ⟨by decide, rfl⟩)]
  norm_num [extrapolationTable, cellValue, firstValue, hasMonthColumn]
  rw [PVal.one_def, PVal.num_add, PVal.num_pow, PVal.num_mul]
  norm_num

/-- Claim C6 at its failing inputs: on `badGrowthTable` (the
`GrowthRateM37Plus` input type exists but carries no month-37 value)
the interpolation of `Accounts` at month 40 raises `KeyError` instead of
falling back to the `0.01` default; and on `gapTable` the missing
`(A, 1)` anchor cell is `NaN`, not `0`, so month 3 interpolates to `NaN`
instead of the claimed degraded-but-defined `0`-based value. -/
theorem c6_failing_eval :
    ProjectionValidatorCorrected.interpolate_value badGrowthTable "Accounts" 40 = none ∧
    ProjectionValidatorCorrected.interpolate_value gapTable "A" 3 = some PVal.nan := by
  constructor
  · norm_num [ProjectionValidatorCorrected.interpolate_value, badGrowthTable, cellValue,
      firstValue, hasInputType, hasMonthColumn, growthLookup]
  · norm_num [ProjectionValidatorCorrected.interpolate_value, gapTable, cellValue,
      firstValue, hasInputType, hasMonthColumn,
      if_neg (show ¬("B" : String) = "A" by decide), PVal.nan_add, PVal.add_nan,
      PVal.nan_sub, PVal.sub_nan, PVal.nan_mul, PVal.mul_nan]

/-- Claim C7 at its failing input: with an empty parameter table the
pipeline yields `total_accounts = 0` and `total_revenue = 0`, and the
key-metrics summary of `ProjectionValidator.export_validation_results`
divides them without a guard — `0.0 / 0.0` raises `ZeroDivisionError`
(modelled as `none`) — whereas the guarded ratio used by
`compare_scenarios` reports `0` as the claim demands. -/
theorem c7_failing_eval :
    ProjectionValidator.key_metrics_row ([] : ParamTable) 1 = none ∧
    guardedRevenuePerAccount (PVal.num 0) (PVal.num 0) = PVal.num 0 := by
  constructor
  · norm_num [ProjectionValidator.key_metrics_row, ProjectionValidator.calculate_accounts,
      ProjectionValidator.calculate_revenue, ProjectionValidator.calculate_transactions,
      ProjectionValidator.interpolate_value, hasInputType, pyDiv, PVal.num_mul,
      PVal.num_add, PVal.zero_def]
  · rfl

/-- The naive `interpolate_value` is the corrected one followed by the
scenario multiplication (the two bodies are verbatim identical up to the
final `return base_value * multiplier`; the early `return 0` is
unaffected because `0 * k = 0`). -/
theorem naive_interpolate_eq (tbl : ParamTable) (t : String) (month : ℕ) (s : String) :
    ProjectionValidator.interpolate_value tbl t month s =
      (ProjectionValidatorCorrected.interpolate_value tbl t month).map
        (fun v => v * PVal.num (scenario_multiplier s)) := by
  unfold ProjectionValidator.interpolate_value ProjectionValidatorCorrected.interpolate_value
  by_cases h : hasInputType tbl t = false
  · rw [if_pos h, if_pos h]
    simp [PVal.num_mul]
  · rw [if_neg h, if_neg h]

/-- Mapping multiplication by the unit multiplier is the identity. -/
theorem option_map_mul_one (x : Option PVal) :
    x.map (fun v => v * PVal.num 1) = x := by
  cases x <;> simp [PVal.mul_num_one]

/-- The scenarios the claim C9 singles out all resolve to multiplier 1:
`Base`, `Custom`, and any unrecognized name (`dict.get` default). -/
theorem scenario_multiplier_eq_one (s : String)
    (hs : s = "Base" ∨ s = "Custom" ∨ s ∉ recognized_scenarios) :
    scenario_multiplier s = 1 := by
  rcases hs with rfl | rfl | h
  · decide
  · decide
  · have h1 : ¬s = "Base" ∧ ¬s = "High_10" ∧ ¬s = "Low_10" ∧ ¬s = "High_25" ∧
        ¬s = "Low_25" ∧ ¬s = "Custom" := by
      simpa [recognized_scenarios, scenario_multipliers] using h
    have e1 : (s == "Base") = false := beq_eq_false_iff_ne.mpr h1.1
    have e2 : (s == "High_10") = false := beq_eq_false_iff_ne.mpr h1.2.1
    have e3 : (s == "Low_10") = false := beq_eq_false_iff_ne.mpr h1.2.2.1
    have e4 : (s == "High_25") = false := beq_eq_false_iff_ne.mpr h1.2.2.2.1
    have e5 : (s == "Low_25") = false := beq_eq_false_iff_ne.mpr h1.2.2.2.2.1
    have e6 : (s == "Custom") = false := beq_eq_false_iff_ne.mpr h1.2.2.2.2.2
    simp [scenario_multiplier, scenario_multipliers, List.lookup, e1, e2, e3, e4, e5, e6]

/-- Claim C9 — refinement at the identity multiplier: for scenario names
`Base`, `Custom`, or any name outside the recognized set, both
implementations resolve the multiplier to `1.0`, under which applying it
to every interpolated value (naive) and applying it to `Accounts` only
(corrected) coincide, so the two pipelines produce identical accounts,
transactions and revenue records. -/
theorem c9_refinement_identity (tbl : ParamTable) (month : ℕ) (s : String)
    (hs : s = "Base" ∨ s = "Custom" ∨ s ∉ recognized_scenarios) :
    ProjectionValidator.calculate_accounts tbl month s =
      ProjectionValidatorCorrected.calculate_accounts tbl month s ∧
    ProjectionValidator.calculate_transactions tbl month s =
      ProjectionValidatorCorrected.calculate_transactions tbl month s ∧
    ProjectionValidator.calculate_revenue tbl month s =
      ProjectionValidatorCorrected.calculate_revenue tbl month s := by
  have hk := scenario_multiplier_eq_one s hs
  have hI : ∀ t, ProjectionValidator.interpolate_value tbl t month s =
      ProjectionValidatorCorrected.interpolate_value tbl t month := by
    intro t
    rw [naive_interpolate_eq, hk]
    exact option_map_mul_one _
  refine ⟨?_, ?_, ?_⟩ <;>
    simp only [ProjectionValidator.calculate_revenue,
      ProjectionValidator.calculate_transactions,
      ProjectionValidator.calculate_accounts,
      ProjectionValidatorCorrected.calculate_revenue,
      ProjectionValidatorCorrected.calculate_transactions,
      ProjectionValidatorCorrected.calculate_accounts,
      ProjectionValidatorCorrected.get_accounts_with_scenario,
      hI, hk, option_map_mul_one]

/-- Witness for C9 at the sample table, month 3, with the unrecognized
scenario name `Purple`. -/
theorem c9_refinement_witness :
    ProjectionValidator.calculate_accounts sampleTable 3 "Purple" =
      ProjectionValidatorCorrected.calculate_accounts sampleTable 3 "Purple" ∧
    ProjectionValidator.calculate_transactions sampleTable 3 "Purple" =
      ProjectionValidatorCorrected.calculate_transactions sampleTable 3 "Purple" ∧
    ProjectionValidator.calculate_revenue sampleTable 3 "Purple" =
      ProjectionValidatorCorrected.calculate_revenue sampleTable 3 "Purple" :=
  c9_refinement_identity sampleTable 3 "Purple" (Or.inr (Or.inr (by decide)))

/-- In the corrected pipeline the whole accounts record scales linearly
with the scenario multiplier relative to the `Base` run. -/
theorem corr_acc_scale (tbl : ParamTable) (month : ℕ) (s : String) :
    ProjectionValidatorCorrected.calculate_accounts tbl month s =
      (ProjectionValidatorCorrected.calculate_accounts tbl month "Base").map
        (fun a => ⟨a.total_accounts * PVal.num (scenario_multiplier s),
                   a.active_accounts * PVal.num (scenario_multiplier s),
                   a.checking_accounts * PVal.num (scenario_multiplier s),
                   a.savings_accounts * PVal.num (scenario_multiplier s)⟩) := by
  unfold ProjectionValidatorCorrected.calculate_accounts
    ProjectionValidatorCorrected.get_accounts_with_scenario
  rw [scenario_multiplier_base]
  cases hA : ProjectionValidatorCorrected.interpolate_value tbl "Accounts" month with
  | none => rfl
  | some vA =>
    cases hAS : ProjectionValidatorCorrected.interpolate_value tbl "ActiveShare" month with
    | none => rfl
    | some vAS =>
      cases hCS : ProjectionValidatorCorrected.interpolate_value tbl "CheckingShare" month with
      | none => rfl
      | some vCS =>
        cases hSS : ProjectionValidatorCorrected.interpolate_value tbl "SavingShare" month with
        | none => rfl
        | some vSS =>
          simp only [Option.bind_eq_bind, Option.some_bind, Option.map_some',
            Option.some.injEq, AccountsRec.mk.injEq, PVal.mul_num_one, PVal.mul_num_mul]

/-- In the corrected pipeline the whole transactions record scales
linearly with the scenario multiplier relative to the `Base` run. -/
theorem corr_tx_scale (tbl : ParamTable) (month : ℕ) (s : String) :
    ProjectionValidatorCorrected.calculate_transactions tbl month s =
      (ProjectionValidatorCorrected.calculate_transactions tbl month "Base").map
        (fun t => ⟨t.ach_incoming * PVal.num (scenario_multiplier s),
                   t.ach_outgoing * PVal.num (scenario_multiplier s),
                   t.rtp_incoming * PVal.num (scenario_multiplier s),
                   t.rtp_outgoing * PVal.num (scenario_multiplier s),
                   t.wire_incoming * PVal.num (scenario_multiplier s),
                   t.wire_outgoing * PVal.num (scenario_multiplier s),
                   t.debit_card * PVal.num (scenario_multiplier s),
                   t.total_volume * PVal.num (scenario_multiplier s)⟩) := by
  unfold ProjectionValidatorCorrected.calculate_transactions
  rw [corr_acc_scale tbl month s]
  cases hAcc : ProjectionValidatorCorrected.calculate_accounts tbl month "Base" with
  | none => rfl
  | some acc =>
    cases h1 : ProjectionValidatorCorrected.interpolate_value tbl "ACHinPerActive" month with
    | none => rfl
    | some v1 =>
      cases h2 : ProjectionValidatorCorrected.interpolate_value tbl "ACHoutPerActive" month with
      | none => rfl
      | some v2 =>
        cases h3 : ProjectionValidatorCorrected.interpolate_value tbl "RTPinPerActive" month with
        | none => rfl
        | some v3 =>
          cases h4 : ProjectionValidatorCorrected.interpolate_value tbl "RTPoutPerActive" month with
          | none => rfl
          | some v4 =>
            cases h5 : ProjectionValidatorCorrected.interpolate_value tbl "WireInPerActive" month with
            | none => rfl
            | some v5 =>
              cases h6 : ProjectionValidatorCorrected.interpolate_value tbl "WireOutPerActive" month with
              | none => rfl
              | some v6 =>
                cases h7 : ProjectionValidatorCorrected.interpolate_value tbl "DebitCardTransactionsPerActive" month with
                | none => rfl
                | some v7 =>
                  simp only [Option.bind_eq_bind, Option.some_bind, Option.map_some',
                    Option.some.injEq, TransactionsRec.mk.injEq, PVal.mul_num_mul,
                    PVal.add_mul_right, PVal.zero_mul_num]

/-- In the corrected pipeline the whole revenue record scales linearly
with the scenario multiplier relative to the `Base` run. -/
theorem corr_rev_scale (tbl : ParamTable) (month : ℕ) (s : String) :
    ProjectionValidatorCorrected.calculate_revenue tbl month s =
      (ProjectionValidatorCorrected.calculate_revenue tbl month "Base").map
        (fun r => ⟨r.ach_incoming * PVal.num (scenario_multiplier s),
                   r.ach_outgoing * PVal.num (scenario_multiplier s),
                   r.rtp_incoming * PVal.num (scenario_multiplier s),
                   r.rtp_outgoing * PVal.num (scenario_multiplier s),
                   r.wire_incoming * PVal.num (scenario_multiplier s),
                   r.wire_outgoing * PVal.num (scenario_multiplier s),
                   r.debit_card * PVal.num (scenario_multiplier s),
                   r.total_revenue * PVal.num (scenario_multiplier s)⟩) := by
  unfold ProjectionValidatorCorrected.calculate_revenue
  rw [corr_tx_scale tbl month s]
  cases hTx : ProjectionValidatorCorrected.calculate_transactions tbl month "Base" with
  | none => rfl
  | some tx =>
    cases h1 : ProjectionValidatorCorrected.interpolate_value tbl "ACHinRate" month with
    | none => rfl
    | some f1 =>
      cases h2 : ProjectionValidatorCorrected.interpolate_value tbl "ACHoutRate" month with
      | none => rfl
      | some f2 =>
        cases h3 : ProjectionValidatorCorrected.interpolate_value tbl "RTPinRate" month with
        | none => rfl
        | some f3 =>
          cases h4 : ProjectionValidatorCorrected.interpolate_value tbl "RTPoutRate" month with
          | none => rfl
          | some f4 =>
            cases h5 : ProjectionValidatorCorrected.interpolate_value tbl "WireInRate" month with
            | none => rfl
            | some f5 =>
              cases h6 : ProjectionValidatorCorrected.interpolate_value tbl "WireOutRate" month with
              | none => rfl
              | some f6 =>
                cases h7 : ProjectionValidatorCorrected.interpolate_value tbl "DebitCardTransactionRate" month with
                | none => rfl
                | some f7 =>
                  simp only [Option.bind_eq_bind, Option.some_bind, Option.map_some',
                    Option.some.injEq, RevenueRec.mk.injEq, PVal.mul_num_mul,
                    PVal.add_mul_right, PVal.zero_mul_num]

/-- Claim C2 — revenue proportionality in the corrected pipeline: for
every table, month and recognized scenario,
`total_revenue(month, s) * total_accounts(month, Base) =
total_revenue(month, Base) * total_accounts(month, s)` (the equality also
covers the raising cases, which do not depend on the scenario). -/
theorem c2_revenue_proportionality (tbl : ParamTable) (month : ℕ) (s : String)
    (_hs : s ∈ recognized_scenarios) :
    optMul (corr_total_revenue tbl month s) (corr_total_accounts tbl month "Base") =
      optMul (corr_total_revenue tbl month "Base") (corr_total_accounts tbl month s) := by
  unfold optMul corr_total_revenue corr_total_accounts
  rw [corr_rev_scale tbl month s, corr_acc_scale tbl month s]
  cases hR : ProjectionValidatorCorrected.calculate_revenue tbl month "Base" with
  | none => rfl
  | some r =>
    cases hA : ProjectionValidatorCorrected.calculate_accounts tbl month "Base" with
    | none => rfl
    | some a =>
      simp only [Option.map_some', Option.bind_eq_bind, Option.some_bind,
        Option.some.injEq, PVal.mul_num_mul, mul_assoc]
      rw [mul_comm (PVal.num (scenario_multiplier s)) a.total_accounts]

/-- Witness for C2: the sample table at month 12 with scenario
`High_25`. -/
theorem c2_revenue_proportionality_witness :
    optMul (corr_total_revenue sampleTable 12 "High_25")
        (corr_total_accounts sampleTable 12 "Base") =
      optMul (corr_total_revenue sampleTable 12 "Base")
        (corr_total_accounts sampleTable 12 "High_25") :=
  c2_revenue_proportionality sampleTable 12 "High_25" (by decide)

theorem PVal.num_sq (k : ℚ) : PVal.num (k * k) = PVal.num (k ^ 2) :=
  congrArg PVal.num (by ring)

theorem PVal.num_cube (k : ℚ) : PVal.num (k * k * k) = PVal.num (k ^ 3) :=
  congrArg PVal.num (by ring)

theorem PVal.num_sq_mul (k : ℚ) : PVal.num (k ^ 2 * k) = PVal.num (k ^ 3) :=
  congrArg PVal.num (by ring)

theorem PVal.num_cube_mul (k : ℚ) : PVal.num (k ^ 3 * k) = PVal.num (k ^ 4) :=
  congrArg PVal.num (by ring)

/-- In the naive pipeline the accounts record scales polynomially:
total by `k`, active by `k²`, checking and savings by `k³`. -/
theorem naive_acc_scale (tbl : ParamTable) (month : ℕ) (s : String) :
    ProjectionValidator.calculate_accounts tbl month s =
      (ProjectionValidator.calculate_accounts tbl month "Base").map
        (fun a => ⟨a.total_accounts * PVal.num (scenario_multiplier s),
                   a.active_accounts * PVal.num (scenario_multiplier s ^ 2),
                   a.checking_accounts * PVal.num (scenario_multiplier s ^ 3),
                   a.savings_accounts * PVal.num (scenario_multiplier s ^ 3)⟩) := by
  unfold ProjectionValidator.calculate_accounts
  simp only [naive_interpolate_eq, scenario_multiplier_base]
  cases hA : ProjectionValidatorCorrected.interpolate_value tbl "Accounts" month with
  | none => rfl
  | some vA =>
    cases hAS : ProjectionValidatorCorrected.interpolate_value tbl "ActiveShare" month with
    | none => rfl
    | some vAS =>
      cases hCS : ProjectionValidatorCorrected.interpolate_value tbl "CheckingShare" month with
      | none => rfl
      | some vCS =>
        cases hSS : ProjectionValidatorCorrected.interpolate_value tbl "SavingShare" month with
        | none => rfl
        | some vSS =>
          simp only [Option.map_some', Option.bind_eq_bind, Option.some_bind,
            Option.some.injEq, AccountsRec.mk.injEq, PVal.mul_num_one,
            PVal.mul_num_mul_num, PVal.num_sq, PVal.num_sq_mul, PVal.num_cube]

/-- In the naive pipeline every transaction volume (and the total)
scales by `k³`. -/
theorem naive_tx_scale (tbl : ParamTable) (month : ℕ) (s : String) :
    ProjectionValidator.calculate_transactions tbl month s =
      (ProjectionValidator.calculate_transactions tbl month "Base").map
        (fun t => ⟨t.ach_incoming * PVal.num (scenario_multiplier s ^ 3),
                   t.ach_outgoing * PVal.num (scenario_multiplier s ^ 3),
                   t.rtp_incoming * PVal.num (scenario_multiplier s ^ 3),
                   t.rtp_outgoing * PVal.num (scenario_multiplier s ^ 3),
                   t.wire_incoming * PVal.num (scenario_multiplier s ^ 3),
                   t.wire_outgoing * PVal.num (scenario_multiplier s ^ 3),
                   t.debit_card * PVal.num (scenario_multiplier s ^ 3),
                   t.total_volume * PVal.num (scenario_multiplier s ^ 3)⟩) := by
  unfold ProjectionValidator.calculate_transactions
  rw [naive_acc_scale tbl month s]
  simp only [naive_interpolate_eq, scenario_multiplier_base]
  cases hAcc : ProjectionValidator.calculate_accounts tbl month "Base" with
  | none => rfl
  | some acc =>
    cases h1 : ProjectionValidatorCorrected.interpolate_value tbl "ACHinPerActive" month with
    | none => rfl
    | some v1 =>
      cases h2 : ProjectionValidatorCorrected.interpolate_value tbl "ACHoutPerActive" month with
      | none => rfl
      | some v2 =>
        cases h3 : ProjectionValidatorCorrected.interpolate_value tbl "RTPinPerActive" month with
        | none => rfl
        | some v3 =>
          cases h4 : ProjectionValidatorCorrected.interpolate_value tbl "RTPoutPerActive" month with
          | none => rfl
          | some v4 =>
            cases h5 : ProjectionValidatorCorrected.interpolate_value tbl "WireInPerActive" month with
            | none => rfl
            | some v5 =>
              cases h6 : ProjectionValidatorCorrected.interpolate_value tbl "WireOutPerActive" month with
              | none => rfl
              | some v6 =>
                cases h7 : ProjectionValidatorCorrected.interpolate_value tbl "DebitCardTransactionsPerActive" month with
                | none => rfl
                | some v7 =>
                  simp only [Option.map_some', Option.bind_eq_bind, Option.some_bind,
                    Option.some.injEq, TransactionsRec.mk.injEq, PVal.mul_num_one,
                    PVal.mul_num_mul_num, PVal.num_sq, PVal.num_sq_mul, PVal.num_cube,
                    PVal.add_mul_right, PVal.zero_mul_num]

/-- In the naive pipeline every channel revenue (and the total) scales
by `k⁴`. -/
theorem naive_rev_scale (tbl : ParamTable) (month : ℕ) (s : String) :
    ProjectionValidator.calculate_revenue tbl month s =
      (ProjectionValidator.calculate_revenue tbl month "Base").map
        (fun r => ⟨r.ach_incoming * PVal.num (scenario_multiplier s ^ 4),
                   r.ach_outgoing * PVal.num (scenario_multiplier s ^ 4),
                   r.rtp_incoming * PVal.num (scenario_multiplier s ^ 4),
                   r.rtp_outgoing * PVal.num (scenario_multiplier s ^ 4),
                   r.wire_incoming * PVal.num (scenario_multiplier s ^ 4),
                   r.wire_outgoing * PVal.num (scenario_multiplier s ^ 4),
                   r.debit_card * PVal.num (scenario_multiplier s ^ 4),
                   r.total_revenue * PVal.num (scenario_multiplier s ^ 4)⟩) := by
  unfold ProjectionValidator.calculate_revenue
  rw [naive_tx_scale tbl month s]
  simp only [naive_interpolate_eq, scenario_multiplier_base]
  cases hTx : ProjectionValidator.calculate_transactions tbl month "Base" with
  | none => rfl
  | some tx =>
    cases h1 : ProjectionValidatorCorrected.interpolate_value tbl "ACHinRate" month with
    | none => rfl
    | some f1 =>
      cases h2 : ProjectionValidatorCorrected.interpolate_value tbl "ACHoutRate" month with
      | none => rfl
      | some f2 =>
        cases h3 : ProjectionValidatorCorrected.interpolate_value tbl "RTPinRate" month with
        | none => rfl
        | some f3 =>
          cases h4 : ProjectionValidatorCorrected.interpolate_value tbl "RTPoutRate" month with
          | none => rfl
          | some f4 =>
            cases h5 : ProjectionValidatorCorrected.interpolate_value tbl "WireInRate" month with
            | none => rfl
            | some f5 =>
              cases h6 : ProjectionValidatorCorrected.interpolate_value tbl "WireOutRate" month with
              | none => rfl
              | some f6 =>
                cases h7 : ProjectionValidatorCorrected.interpolate_value tbl "DebitCardTransactionRate" month with
                | none => rfl
                | some f7 =>
                  simp only [Option.map_some', Option.bind_eq_bind, Option.some_bind,
                    Option.some.injEq, RevenueRec.mk.injEq, PVal.mul_num_one,
                    PVal.mul_num_mul_num, PVal.num_cube_mul,
                    PVal.add_mul_right, PVal.zero_mul_num]

/-- Claim C10 — implicit scaling law of the naive pipeline: with the
multiplier applied to every interpolated value, a recognized scenario of
multiplier `k` scales `total_accounts` by `k`, `active_accounts` by
`k²`, `total_volume` by `k³` and `total_revenue` by `k⁴` relative to the
`Base` run. -/
theorem c10_naive_scaling (tbl : ParamTable) (month : ℕ) (s : String)
    (_hs : s ∈ recognized_scenarios) :
    naive_total_accounts tbl month s =
      scaleO (scenario_multiplier s) (naive_total_accounts tbl month "Base") ∧
    naive_active_accounts tbl month s =
      scaleO (scenario_multiplier s ^ 2) (naive_active_accounts tbl month "Base") ∧
    naive_total_volume tbl month s =
      scaleO (scenario_multiplier s ^ 3) (naive_total_volume tbl month "Base") ∧
    naive_total_revenue tbl month s =
      scaleO (scenario_multiplier s ^ 4) (naive_total_revenue tbl month "Base") := by
  refine ⟨?_, ?_, ?_, ?_⟩
  · unfold naive_total_accounts scaleO
    rw [naive_acc_scale tbl month s]
    cases hAcc : ProjectionValidator.calculate_accounts tbl month "Base" with
    | none => rfl
    | some a =>
      simp only [Option.map_some', Option.some.injEq]
      exact mul_comm _ _
  · unfold naive_active_accounts scaleO
    rw [naive_acc_scale tbl month s]
    cases hAcc : ProjectionValidator.calculate_accounts tbl month "Base" with
    | none => rfl
    | some a =>
      simp only [Option.map_some', Option.some.injEq]
      exact mul_comm _ _
  · unfold naive_total_volume scaleO
    rw [naive_tx_scale tbl month s]
    cases hTx : ProjectionValidator.calculate_transactions tbl month "Base" with
    | none => rfl
    | some t =>
      simp only [Option.map_some', Option.some.injEq]
      exact mul_comm _ _
  · unfold naive_total_revenue scaleO
    rw [naive_rev_scale tbl month s]
    cases hR : ProjectionValidator.calculate_revenue tbl month "Base" with
    | none => rfl
    | some r =>
      simp only [Option.map_some', Option.some.injEq]
      exact mul_comm _ _

/-- Witness for C10: the sample table at month 12 with scenario
`High_10`. -/
theorem c10_naive_scaling_witness :
    naive_total_accounts sampleTable 12 "High_10" =
      scaleO (scenario_multiplier "High_10") (naive_total_accounts sampleTable 12 "Base") ∧
    naive_active_accounts sampleTable 12 "High_10" =
      scaleO (scenario_multiplier "High_10" ^ 2) (naive_active_accounts sampleTable 12 "Base") ∧
    naive_total_volume sampleTable 12 "High_10" =
      scaleO (scenario_multiplier "High_10" ^ 3) (naive_total_volume sampleTable 12 "Base") ∧
    naive_total_revenue sampleTable 12 "High_10" =
      scaleO (scenario_multiplier "High_10" ^ 4) (naive_total_revenue sampleTable 12 "Base") :=
  c10_naive_scaling sampleTable 12 "High_10" (by decide)

/-- When the growth lookup is defined, the interpolation never raises. -/
theorem corr_interp_ne_none (tbl : ParamTable) (hg : growthLookup tbl ≠ none)
    (t : String) (month : ℕ) :
    ProjectionValidatorCorrected.interpolate_value tbl t month ≠ none := by
  unfold ProjectionValidatorCorrected.interpolate_value
  split_ifs
  all_goals simp [hg]

/-- When the growth lookup is defined, `calculate_accounts` returns. -/
theorem corr_acc_some (tbl : ParamTable) (month : ℕ) (s : String)
    (hg : growthLookup tbl ≠ none) :
    ∃ a, ProjectionValidatorCorrected.calculate_accounts tbl month s = some a := by
  unfold ProjectionValidatorCorrected.calculate_accounts
    ProjectionValidatorCorrected.get_accounts_with_scenario
  cases hA : ProjectionValidatorCorrected.interpolate_value tbl "Accounts" month with
  | none => exact absurd hA (corr_interp_ne_none tbl hg "Accounts" month)
  | some vA =>
    cases hAS : ProjectionValidatorCorrected.interpolate_value tbl "ActiveShare" month with
    | none => exact absurd hAS (corr_interp_ne_none tbl hg "ActiveShare" month)
    | some vAS =>
      cases hCS : ProjectionValidatorCorrected.interpolate_value tbl "CheckingShare" month with
      | none => exact absurd hCS (corr_interp_ne_none tbl hg "CheckingShare" month)
      | some vCS =>
        cases hSS : ProjectionValidatorCorrected.interpolate_value tbl "SavingShare" month with
        | none => exact absurd hSS (corr_interp_ne_none tbl hg "SavingShare" month)
        | some vSS => exact ⟨_, rfl⟩

/-- When the growth lookup is defined, `calculate_transactions` returns. -/
theorem corr_tx_some (tbl : ParamTable) (month : ℕ) (s : String)
    (hg : growthLookup tbl ≠ none) :
    ∃ t, ProjectionValidatorCorrected.calculate_transactions tbl month s = some t := by
  obtain ⟨a, ha⟩ := corr_acc_some tbl month s hg
  unfold ProjectionValidatorCorrected.calculate_transactions
  rw [ha]
  cases h1 : ProjectionValidatorCorrected.interpolate_value tbl "ACHinPerActive" month with
  | none => exact absurd h1 (corr_interp_ne_none tbl hg "ACHinPerActive" month)
  | some v1 =>
    cases h2 : ProjectionValidatorCorrected.interpolate_value tbl "ACHoutPerActive" month with
    | none => exact absurd h2 (corr_interp_ne_none tbl hg "ACHoutPerActive" month)
    | some v2 =>
      cases h3 : ProjectionValidatorCorrected.interpolate_value tbl "RTPinPerActive" month with
      | none => exact absurd h3 (corr_interp_ne_none tbl hg "RTPinPerActive" month)
      | some v3 =>
        cases h4 : ProjectionValidatorCorrected.interpolate_value tbl "RTPoutPerActive" month with
        | none => exact absurd h4 (corr_interp_ne_none tbl hg "RTPoutPerActive" month)
        | some v4 =>
          cases h5 : ProjectionValidatorCorrected.interpolate_value tbl "WireInPerActive" month with
          | none => exact absurd h5 (corr_interp_ne_none tbl hg "WireInPerActive" month)
          | some v5 =>
            cases h6 : ProjectionValidatorCorrected.interpolate_value tbl "WireOutPerActive" month with
            | none => exact absurd h6 (corr_interp_ne_none tbl hg "WireOutPerActive" month)
            | some v6 =>
              cases h7 : ProjectionValidatorCorrected.interpolate_value tbl "DebitCardTransactionsPerActive" month with
              | none => exact absurd h7 (corr_interp_ne_none tbl hg "DebitCardTransactionsPerActive" month)
              | some v7 => exact ⟨_, rfl⟩

/-- When the growth lookup is defined, `calculate_revenue` returns. -/
theorem corr_rev_some (tbl : ParamTable) (month : ℕ) (s : String)
    (hg : growthLookup tbl ≠ none) :
    ∃ r, ProjectionValidatorCorrected.calculate_revenue tbl month s = some r := by
  obtain ⟨t, htx⟩ := corr_tx_some tbl month s hg
  unfold ProjectionValidatorCorrected.calculate_revenue
  rw [htx]
  cases h1 : ProjectionValidatorCorrected.interpolate_value tbl "ACHinRate" month with
  | none => exact absurd h1 (corr_interp_ne_none tbl hg "ACHinRate" month)
  | some f1 =>
    cases h2 : ProjectionValidatorCorrected.interpolate_value tbl "ACHoutRate" month with
    | none => exact absurd h2 (corr_interp_ne_none tbl hg "ACHoutRate" month)
    | some f2 =>
      cases h3 : ProjectionValidatorCorrected.interpolate_value tbl "RTPinRate" month with
      | none => exact absurd h3 (corr_interp_ne_none tbl hg "RTPinRate" month)
      | some f3 =>
        cases h4 : ProjectionValidatorCorrected.interpolate_value tbl "RTPoutRate" month with
        | none => exact absurd h4 (corr_interp_ne_none tbl hg "RTPoutRate" month)
        | some f4 =>
          cases h5 : ProjectionValidatorCorrected.interpolate_value tbl "WireInRate" month with
          | none => exact absurd h5 (corr_interp_ne_none tbl hg "WireInRate" month)
          | some f5 =>
            cases h6 : ProjectionValidatorCorrected.interpolate_value tbl "WireOutRate" month with
            | none => exact absurd h6 (corr_interp_ne_none tbl hg "WireOutRate" month)
            | some f6 =>
              cases h7 : ProjectionValidatorCorrected.interpolate_value tbl "DebitCardTransactionRate" month with
              | none => exact absurd h7 (corr_interp_ne_none tbl hg "DebitCardTransactionRate" month)
              | some f7 => exact ⟨_, rfl⟩

/-- When the growth lookup is defined, each comparison row is built, with
its six columns in order. -/
theorem comparison_row_some (tbl : ParamTable) (month : ℕ) (s : String)
    (hg : growthLookup tbl ≠ none) :
    ∃ a r, ProjectionValidatorCorrected.comparison_row tbl month s =
      some [("Scenario", Cell.str s), ("Month", Cell.nat month),
            ("TotalAccounts", Cell.fl (AccountsRec.total_accounts a)),
            ("ActiveAccounts", Cell.fl (AccountsRec.active_accounts a)),
            ("TotalRevenue", Cell.fl (RevenueRec.total_revenue r)),
            ("RevenuePerAccount",
             Cell.fl (guardedRevenuePerAccount (RevenueRec.total_revenue r)
               (AccountsRec.total_accounts a)))] := by
  obtain ⟨a, ha⟩ := corr_acc_some tbl month s hg
  obtain ⟨r, hr⟩ := corr_rev_some tbl month s hg
  refine ⟨a, r, ?_⟩
  unfold ProjectionValidatorCorrected.comparison_row
  rw [ha, hr]
  rfl

/-- Claim C8, amended — the corrected `compare_scenarios` satisfies the
full contract whenever the growth lookup is defined (see C6 for the
degenerate raising case): one summary per scenario in the order
`[Base, High_10, Low_10, High_25, Low_25]`, and every summary carries
variance-from-base columns for BOTH total revenue and total accounts,
computed as `(value - base_value) / base_value` with `base_value` read
from the `Base` row of the same call's DataFrame.  (The naive
`ProjectionValidator.compare_scenarios` produces the same ordered rows
but only the revenue variance column: see the counterexample.) -/
theorem c8_compare_contract (tbl : ParamTable) (month : ℕ)
    (hg : growthLookup tbl ≠ none) :
    ∃ rows, ProjectionValidatorCorrected.compare_scenarios tbl month = some rows ∧
      rows.map (fun r => r.lookup "Scenario") =
        [some (Cell.str "Base"), some (Cell.str "High_10"), some (Cell.str "Low_10"),
         some (Cell.str "High_25"), some (Cell.str "Low_25")] ∧
      ∀ r ∈ rows,
        r.lookup "VarianceFromBase_Revenue" = some (Cell.ext (pandasDiv
          (getCol r "TotalRevenue" - scenarioCol rows "Base" "TotalRevenue")
          (scenarioCol rows "Base" "TotalRevenue"))) ∧
        r.lookup "VarianceFromBase_Accounts" = some (Cell.ext (pandasDiv
          (getCol r "TotalAccounts" - scenarioCol rows "Base" "TotalAccounts")
          (scenarioCol rows "Base" "TotalAccounts"))) := by
  obtain ⟨a1, r1, h1⟩ := comparison_row_some tbl month "Base" hg
  obtain ⟨a2, r2, h2⟩ := comparison_row_some tbl month "High_10" hg
  obtain ⟨a3, r3, h3⟩ := comparison_row_some tbl month "Low_10" hg
  obtain ⟨a4, r4, h4⟩ := comparison_row_some tbl month "High_25" hg
  obtain ⟨a5, r5, h5⟩ := comparison_row_some tbl month "Low_25" hg
  unfold ProjectionValidatorCorrected.compare_scenarios
    ProjectionValidatorCorrected.scenario_list
  simp only [List.mapM_cons, List.mapM_nil, h1, h2, h3, h4, h5,
    Option.bind_eq_bind, Option.some_bind, Option.pure_def, List.map_cons,
    List.map_nil]
  refine ⟨_, rfl, rfl, ?_⟩
  intro r hr
  simp only [List.mem_cons, List.not_mem_nil, or_false] at hr
  rcases hr with rfl | rfl | rfl | rfl | rfl <;> exact ⟨rfl, rfl⟩

/-- Witness for C8 (amended): the sample table at month 12 has a defined
growth lookup, so the corrected comparison returns its DataFrame. -/
theorem c8_compare_contract_witness :
    (ProjectionValidatorCorrected.compare_scenarios sampleTable 12).isSome = true := by
  obtain ⟨rows, hrows, -, -⟩ := c8_compare_contract sampleTable 12 (by decide)
  rw [hrows]
  rfl

/-- Counterexample to C8 as stated: the naive validator's
`compare_scenarios` (also cited by the claim) produces its five ordered
summaries, but none of them carries the accounts variance-from-base
column — only the revenue variance is reported. -/
theorem c8_counterexample :
    (ProjectionValidator.compare_scenarios sampleTable 1).isSome = true ∧
    ((ProjectionValidator.compare_scenarios sampleTable 1).getD []).length = 5 ∧
    ((ProjectionValidator.compare_scenarios sampleTable 1).getD []).all
      hasAccountsVarianceColumn = false := by
  exact ⟨by decide, by decide, by decide⟩
